import Mathlib

/-!
Shallow embedding of the resource-manager core of the k8s-device-plugin
(source file internal/rm/rm.go), together with spec-modelled definitions for
the package-internal collaborators that rm.go delegates to (the allocation
engine, the device-map builder, the resource-rule helpers and walkMigProfiles,
which live in sibling files of the same package that are not part of this
source snapshot), and proofs of the specification claims about them.

Hardware interaction (nvml.Init, nvml.Shutdown, nvinfo.HasNVML, the MIG
profile enumeration) is threaded through explicit environment values, and the
NVML init/shutdown calls a run performs are returned as an effect trace, so
that the deferred shutdown of rm.go is observable in the model.
-/

namespace rm

/-- A resource name under which a set of devices is exposed (spec.ResourceName). -/
abbrev ResourceName := String

/-- Modelled from the spec: the Device type of this package (defined in a
sibling file of the package, not in this snapshot).  Per the spec data model a
device has a stable orchestrator-visible ID, a hardware enumeration index and
a health state. -/
structure Device where
  id : String
  index : Nat
  healthy : Bool
deriving DecidableEq, Repr

/-- Modelled from the spec: the Devices collection of this package — the
ordered list of devices owned by one resource manager. -/
abbrev Devices := List Device

/-- The none MIG strategy constant (spec.MigStrategyNone). -/
def MigStrategyNone : String := "none"

/-- The single MIG strategy constant (spec.MigStrategySingle). -/
def MigStrategySingle : String := "single"

/-- The mixed MIG strategy constant (spec.MigStrategyMixed). -/
def MigStrategyMixed : String := "mixed"

/-- The command-line flags consumed by rm.go (config.Flags), with the
pointer-valued Go fields dereferenced to plain values. -/
structure Flags where
  migStrategy : String
  failOnInitError : Bool
deriving DecidableEq, Repr

/-- Modelled from the spec: the resource-matching rules held in
config.Resources — an ordered list of (pattern, resource name) rules for whole
GPUs and one for MIG devices.  AddGPUResource and AddMIGResource, defined in
the config package (not in this snapshot), append a rule to the respective
list. -/
structure Resources where
  gpus : List (String × String)
  migs : List (String × String)
deriving DecidableEq, Repr

/-- The plugin configuration (spec.Config) restricted to the fields rm.go
reads. -/
structure Config where
  flags : Flags
  resources : Resources
deriving DecidableEq, Repr

/-- resourceManager implements the ResourceManager interface (rm.go). -/
structure resourceManager where
  config : Config
  resource : ResourceName
  devices : Devices
deriving DecidableEq, Repr

/-- Resource gets the resource name associated with the resourceManager. -/
def resourceManager.Resource (r : resourceManager) : ResourceName :=
  r.resource

/-- Devices gets the devices managed by the resourceManager. -/
def resourceManager.Devices (r : resourceManager) : Devices :=
  r.devices

/-- The error reported by the allocation path, per the error taxonomy of the
spec: a caller contract violation is an InvalidRequest. -/
inductive AllocError where
  | invalidRequest
deriving DecidableEq, Repr

/-- Modelled from the spec: the allocation engine getPreferredAllocation,
defined in a sibling file of the package that is not in this snapshot; rm.go
only delegates to it.  Per the spec: validate the request — an available set
containing devices unknown to this manager's pool must fail with
InvalidRequest rather than silently ignoring them, and the subset and
size-range invariants must hold, failing with InvalidRequest otherwise; start
the result with all of required; rank the remaining available devices by the
preference policy and append the top size - len(required) of them, preserving
the original available ordering.  The exact preference ranking is left open
by the spec; the stable fallback it fixes — original available order, i.e.
ascending enumeration order — is used here. -/
def getPreferredAllocation (devices : Devices) (available required : List String)
    (size : Nat) : Except AllocError (List String) :=
  if ¬ available.all (fun d => devices.any (fun dev => dev.id == d)) then
    .error .invalidRequest
  else if ¬ required.all (fun d => available.contains d) then
    .error .invalidRequest
  else if size < required.length then
    .error .invalidRequest
  else if available.length < size then
    .error .invalidRequest
  else
    .ok (required ++
      (available.filter (fun d => ! required.contains d)).take (size - required.length))

/-- GetPreferredAllocation runs an allocation algorithm over the inputs
(rm.go): it delegates to the allocation engine with this manager's device
context. -/
def resourceManager.GetPreferredAllocation (r : resourceManager)
    (available required : List String) (size : Nat) :
    Except AllocError (List String) :=
  getPreferredAllocation r.devices available required size

/-- Observable effects on the process-wide NVML handle. -/
inductive Effect where
  | nvmlInit
  | nvmlShutdown
deriving DecidableEq, Repr

/-- The errors of the inventory-build path, per the error taxonomy of the
spec: initError when the hardware collaborator cannot be initialized,
deviceMapError when building the device map fails. -/
inductive BuildError where
  | initError
  | deviceMapError
deriving DecidableEq, Repr

/-- Modelled from the spec: the outcome of the hardware-collaborator calls
NewResourceManagers makes — whether nvml.Init succeeds, and the result of
buildDeviceMap (defined in a sibling file, not in this snapshot): none when it
fails, otherwise the resource name to devices mapping as an ordered list. -/
structure NvmlEnv where
  initSuccess : Bool
  deviceMap : Option (List (ResourceName × Devices))
deriving DecidableEq, Repr

/-- One step of the manager-collecting loop of NewResourceManagers: construct
the manager for one (resource name, devices) entry and append it to the
accumulator only when its device list is non-empty. -/
def addManager (config : Config) (rms : List resourceManager)
    (p : ResourceName × Devices) : List resourceManager :=
  let r : resourceManager := { config := config, resource := p.1, devices := p.2 }
  if r.Devices.length ≠ 0 then rms ++ [r] else rms

/-- NewResourceManagers returns one resourceManager for each resource in
config (rm.go).  If nvml.Init fails, the call errors out exactly when
FailOnInitError is set and otherwise degrades to an empty manager set; after a
successful init a shutdown of the handle is deferred, so every later return
path records an nvmlShutdown effect. -/
def NewResourceManagers (env : NvmlEnv) (config : Config) :
    Except BuildError (List resourceManager) × List Effect :=
  if ¬ env.initSuccess then
    if config.flags.failOnInitError then
      (.error .initError, [.nvmlInit])
    else
      (.ok [], [.nvmlInit])
  else
    match env.deviceMap with
    | none => (.error .deviceMapError, [.nvmlInit, .nvmlShutdown])
    | some deviceMap =>
        (.ok (deviceMap.foldl (addManager config) []), [.nvmlInit, .nvmlShutdown])

/-- Modelled from the spec: Resources.AddGPUResource of the config package
(not in this snapshot) appends an ordered (pattern, resource name) matching
rule for whole GPUs. -/
def Resources.AddGPUResource (rs : Resources) (pat resName : String) : Resources :=
  { rs with gpus := rs.gpus ++ [(pat, resName)] }

/-- Modelled from the spec: Resources.AddMIGResource of the config package
(not in this snapshot) appends a matching rule for MIG devices; the spec gives
it no failure mode, so its Go error result is always nil. -/
def Resources.AddMIGResource (rs : Resources) (pat resName : String) :
    Option BuildError × Resources :=
  (none, { rs with migs := rs.migs ++ [(pat, resName)] })

/-- Modelled from the spec: walkMigProfiles (sibling file, not in this
snapshot) enumerates the MIG profiles present on the node in order and applies
the callback to each, stopping at the first error; the configuration state the
Go callback mutates through its closure is threaded explicitly here. -/
def walkMigProfiles (f : String → Resources → Option BuildError × Resources) :
    List String → Resources → Option BuildError × Resources
  | [], rs => (none, rs)
  | p :: rest, rs =>
    match f p rs with
    | (some e, rs2) => (some e, rs2)
    | (none, rs2) => walkMigProfiles f rest rs2

/-- Modelled from the spec: the hardware facts AddDefaultResourcesToConfig
consults — whether NVML is detected at all (nvinfo.HasNVML), whether nvml.Init
succeeds, and the MIG profiles walkMigProfiles enumerates. -/
structure MigEnv where
  hasNVML : Bool
  initSuccess : Bool
  migProfiles : List String
deriving DecidableEq, Repr

/-- AddDefaultResourcesToConfig adds default resource matching rules to
config.Resources (rm.go).  Go mutates config through a pointer and returns
only an error; here the mutated configuration is returned alongside the
error. -/
def AddDefaultResourcesToConfig (env : MigEnv) (config : Config) :
    Option BuildError × Config :=
  let config1 := { config with resources := config.resources.AddGPUResource "*" "gpu" }
  if config1.flags.migStrategy = MigStrategySingle then
    let m := config1.resources.AddMIGResource "*" "gpu"
    (m.1, { config1 with resources := m.2 })
  else if config1.flags.migStrategy = MigStrategyMixed then
    if ¬ env.hasNVML then
      (none, config1)
    else if ¬ env.initSuccess then
      if config1.flags.failOnInitError then
        (some .initError, config1)
      else
        (none, config1)
    else
      let w := walkMigProfiles (fun p rs => rs.AddMIGResource p ("mig-" ++ p))
        env.migProfiles config1.resources
      (w.1, { config1 with resources := w.2 })
  else
    (none, config1)

/-- A minimal concrete configuration, used by the concrete witnesses. -/
def cfg0 : Config :=
  { flags := { migStrategy := MigStrategyNone, failOnInitError := false },
    resources := { gpus := [], migs := [] } }

/-- A concrete device, used by the concrete witnesses. -/
def dev0 : Device :=
  { id := "GPU-0", index := 0, healthy := true }

/-- A concrete resource manager, used by the concrete witnesses. -/
def rm0 : resourceManager :=
  { config := cfg0, resource := "gpu", devices := [dev0] }

/-- Concrete devices forming a four-device pool, used by the concrete
witnesses. -/
def devA : Device :=
  { id := "A", index := 0, healthy := true }

/-- Second device of the concrete four-device pool. -/
def devB : Device :=
  { id := "B", index := 1, healthy := true }

/-- Third device of the concrete four-device pool. -/
def devC : Device :=
  { id := "C", index := 2, healthy := true }

/-- Fourth device of the concrete four-device pool. -/
def devD : Device :=
  { id := "D", index := 3, healthy := true }

/-- A concrete resource manager owning the four-device pool, used by the
concrete witnesses of the allocation claims. -/
def rm1 : resourceManager :=
  { config := cfg0, resource := "gpu", devices := [devA, devB, devC, devD] }

/-- A concrete mixed-strategy configuration with the fail-fast flag set, used
by the concrete witnesses. -/
def cfg9 : Config :=
  { flags := { migStrategy := MigStrategyMixed, failOnInitError := true },
    resources := { gpus := [], migs := [] } }

/-- A concrete hardware environment with NVML absent, used by the concrete
witnesses. -/
def env9 : MigEnv :=
  { hasNVML := false, initSuccess := false, migProfiles := [] }

/-- A concrete single-strategy configuration, used by the concrete
witnesses. -/
def cfg10 : Config :=
  { flags := { migStrategy := MigStrategySingle, failOnInitError := false },
    resources := { gpus := [], migs := [] } }

/-- A concrete hardware environment with NVML present, used by the concrete
witnesses. -/
def env10 : MigEnv :=
  { hasNVML := true, initSuccess := true, migProfiles := [] }

/-- The Boolean subset check of the allocation engine agrees with list
subset. -/
lemma all_contains_eq_true_iff (required available : List String) :
    required.all (fun d => available.contains d) = true ↔ required ⊆ available := by
  constructor
  · intro h d hd
    have h2 := List.all_eq_true.mp h d hd
    simpa using h2
  · intro h
    refine List.all_eq_true.mpr ?_
    intro d hd
    simpa using h hd

/-- The Boolean pool-membership check of the allocation engine agrees with
membership in the pool's list of device IDs. -/
lemma all_known_eq_true_iff (available : List String) (devices : Devices) :
    available.all (fun d => devices.any (fun dev => dev.id == d)) = true ↔
      available ⊆ devices.map Device.id := by
  constructor
  · intro h d hd
    have h2 := List.all_eq_true.mp h d hd
    rcases List.any_eq_true.mp h2 with ⟨dev, hdev, hid⟩
    exact List.mem_map.mpr ⟨dev, hdev, beq_iff_eq.mp hid⟩
  · intro h
    refine List.all_eq_true.mpr ?_
    intro d hd
    rcases List.mem_map.mp (h hd) with ⟨dev, hdev, hid⟩
    exact List.any_eq_true.mpr ⟨dev, hdev, beq_iff_eq.mpr hid⟩

/-- Shape of a successful allocation: the required devices followed by a
stable-order filler taken from the remaining available devices. -/
lemma getPreferredAllocation_ok_eq (devices : Devices)
    (available required : List String) (size : Nat)
    (hpool : available ⊆ devices.map Device.id)
    (hsub : required ⊆ available)
    (hlo : required.length ≤ size) (hhi : size ≤ available.length) :
    getPreferredAllocation devices available required size =
      .ok (required ++
        (available.filter (fun d => ! required.contains d)).take
          (size - required.length)) := by
  have h0 : available.all (fun d => devices.any (fun dev => dev.id == d)) = true :=
    (all_known_eq_true_iff available devices).mpr hpool
  have h1 : required.all (fun d => available.contains d) = true :=
    (all_contains_eq_true_iff required available).mpr hsub
  simp [getPreferredAllocation, h0, h1, Nat.not_lt.mpr hlo, Nat.not_lt.mpr hhi]
  exact fun x hx => hsub hx

/-- At least length available minus length required devices survive the
not-required filter, provided available has no duplicate IDs. -/
lemma length_filter_not_contains (available required : List String)
    (hnd : available.Nodup) :
    available.length - required.length ≤
      (available.filter (fun d => ! required.contains d)).length := by
  have hsplit : available.length =
      (available.filter (fun d => required.contains d)).length +
        (available.filter (fun d => ! required.contains d)).length := by
    simpa using
      List.length_eq_length_filter_add (l := available) (fun d => required.contains d)
  have hsubset : available.filter (fun d => required.contains d) ⊆ required := by
    intro x hx
    have hx2 := List.of_mem_filter hx
    simpa using hx2
  have hndf : (available.filter (fun d => required.contains d)).Nodup :=
    hnd.filter _
  have hle : (available.filter (fun d => required.contains d)).length ≤
      required.length :=
    (hndf.subperm hsubset).length_le
  omega

/-- Claim C1: for every valid allocation request against this manager's
pool — every available ID known to the pool, required a subset of the
duplicate-free available list and size within the closed interval from
length required to length available — GetPreferredAllocation succeeds and the
returned list has length exactly size. -/
theorem GetPreferredAllocation_length_eq_size (r : resourceManager)
    (available required : List String) (size : Nat)
    (hpool : available ⊆ r.Devices.map Device.id)
    (hnd : available.Nodup) (hsub : required ⊆ available)
    (hlo : required.length ≤ size) (hhi : size ≤ available.length) :
    ∃ l, r.GetPreferredAllocation available required size = .ok l ∧
      l.length = size := by
  simp only [resourceManager.Devices] at hpool
  simp only [resourceManager.GetPreferredAllocation]
  refine ⟨_,
    getPreferredAllocation_ok_eq r.devices available required size hpool hsub hlo hhi,
    ?_⟩
  have hfilter := length_filter_not_contains available required hnd
  simp only [List.length_append, List.length_take]
  omega

/-- Claim C1 witness at the worked example of the spec: pool of four devices,
one required, size two. -/
theorem GetPreferredAllocation_length_eq_size_witness :
    ∃ l, rm1.GetPreferredAllocation ["A", "B", "C", "D"] ["C"] 2 = .ok l ∧
      l.length = 2 :=
  GetPreferredAllocation_length_eq_size rm1 ["A", "B", "C", "D"] ["C"] 2
    (by decide) (by decide) (by decide) (by decide) (by decide)

/-- Claim C2: for every valid allocation request against this manager's pool,
every device ID in required appears in the returned list. -/
theorem GetPreferredAllocation_required_included (r : resourceManager)
    (available required : List String) (size : Nat)
    (hpool : available ⊆ r.Devices.map Device.id)
    (hsub : required ⊆ available)
    (hlo : required.length ≤ size) (hhi : size ≤ available.length) :
    ∃ l, r.GetPreferredAllocation available required size = .ok l ∧
      required ⊆ l := by
  simp only [resourceManager.Devices] at hpool
  simp only [resourceManager.GetPreferredAllocation]
  exact ⟨_,
    getPreferredAllocation_ok_eq r.devices available required size hpool hsub hlo hhi,
    List.subset_append_left _ _⟩

/-- Claim C2 witness: the one required device C is part of the returned
list. -/
theorem GetPreferredAllocation_required_included_witness :
    ∃ l, rm1.GetPreferredAllocation ["A", "B", "C", "D"] ["C"] 2 = .ok l ∧
      (["C"] : List String) ⊆ l :=
  GetPreferredAllocation_required_included rm1 ["A", "B", "C", "D"] ["C"] 2
    (by decide) (by decide) (by decide) (by decide)

/-- Claim C3: any request violating the subset or size-range contract fails
with InvalidRequest rather than returning a result. -/
theorem GetPreferredAllocation_invalid_request (r : resourceManager)
    (available required : List String) (size : Nat)
    (h : ¬ required ⊆ available ∨ size < required.length ∨
      available.length < size) :
    r.GetPreferredAllocation available required size = .error .invalidRequest := by
  simp only [resourceManager.GetPreferredAllocation, getPreferredAllocation]
  split
  · rfl
  next =>
    split
    · rfl
    next h1 =>
      split
      · rfl
      next h2 =>
        split
        · rfl
        next h3 =>
          exfalso
          rcases h with hc | hc | hc
          · exact hc ((all_contains_eq_true_iff required available).mp (not_not.mp h1))
          · exact h2 hc
          · exact h3 hc

/-- Claim C3 witness: requesting fewer devices than are required fails with
InvalidRequest. -/
theorem GetPreferredAllocation_invalid_request_witness :
    rm0.GetPreferredAllocation ["A"] ["A"] 0 = .error .invalidRequest :=
  GetPreferredAllocation_invalid_request rm0 ["A"] ["A"] 0
    (Or.inr (Or.inl (by decide)))

/-- Claim C4: the allocation is deterministic and idempotent — two calls on
the same unchanged manager with identical inputs return identical ordered
lists. -/
theorem GetPreferredAllocation_deterministic (r : resourceManager)
    (available required : List String) (size : Nat) (l1 l2 : List String)
    (h1 : r.GetPreferredAllocation available required size = .ok l1)
    (h2 : r.GetPreferredAllocation available required size = .ok l2) :
    l1 = l2 :=
  Except.ok.inj (h1.symm.trans h2)

/-- Claim C4 witness: two identical concrete calls return the identical
list. -/
theorem GetPreferredAllocation_deterministic_witness :
    (["C", "A"] : List String) = ["C", "A"] :=
  GetPreferredAllocation_deterministic rm1 ["A", "B", "C", "D"] ["C"] 2
    ["C", "A"] ["C", "A"] rfl rfl

/-- Claim C8: with every available ID known to this manager's pool, size equal
to the number of required devices and required a duplicate-free subset of
available, the allocation returns exactly required, order preserved. -/
theorem GetPreferredAllocation_size_eq_required (r : resourceManager)
    (available required : List String)
    (hpool : available ⊆ r.Devices.map Device.id)
    (hnd : required.Nodup) (hsub : required ⊆ available) :
    r.GetPreferredAllocation available required required.length = .ok required := by
  have hhi : required.length ≤ available.length := (hnd.subperm hsub).length_le
  simp only [resourceManager.Devices] at hpool
  simp only [resourceManager.GetPreferredAllocation]
  rw [getPreferredAllocation_ok_eq r.devices available required required.length
    hpool hsub le_rfl hhi]
  simp

/-- Claim C8 witness: requesting exactly the required device C returns
exactly the list containing C. -/
theorem GetPreferredAllocation_size_eq_required_witness :
    rm1.GetPreferredAllocation ["A", "B", "C", "D"] ["C"] 1 = .ok ["C"] :=
  GetPreferredAllocation_size_eq_required rm1 ["A", "B", "C", "D"] ["C"]
    (by decide) (by decide) (by decide)

/-- Claim C5: when NVML initialization fails, NewResourceManagers errors out
exactly when FailOnInitError is set, and with the flag unset it returns an
empty manager set and no error. -/
theorem NewResourceManagers_init_failure (env : NvmlEnv) (config : Config)
    (h : env.initSuccess = false) :
    ((∃ e, (NewResourceManagers env config).1 = .error e) ↔
        config.flags.failOnInitError = true) ∧
      (config.flags.failOnInitError = false →
        (NewResourceManagers env config).1 = .ok []) := by
  cases hf : config.flags.failOnInitError <;>
    simp [NewResourceManagers, h, hf]

/-- Claim C5 witness: init failure with the fail-fast flag unset yields no
error and zero managers. -/
theorem NewResourceManagers_init_failure_witness :
    ((∃ e, (NewResourceManagers { initSuccess := false, deviceMap := none }
        cfg0).1 = .error e) ↔ cfg0.flags.failOnInitError = true) ∧
      (cfg0.flags.failOnInitError = false →
        (NewResourceManagers { initSuccess := false, deviceMap := none }
          cfg0).1 = .ok []) :=
  NewResourceManagers_init_failure { initSuccess := false, deviceMap := none }
    cfg0 rfl

/-- Every manager produced by the collecting loop of NewResourceManagers has a
non-empty device list, provided every manager already in the accumulator
does. -/
lemma addManager_foldl_nonempty (config : Config)
    (dm : List (ResourceName × Devices)) (acc : List resourceManager)
    (hacc : ∀ r ∈ acc, r.Devices.length ≠ 0) :
    ∀ r ∈ dm.foldl (addManager config) acc, r.Devices.length ≠ 0 := by
  induction dm generalizing acc with
  | nil => simpa using hacc
  | cons p rest ih =>
    intro r hr
    refine ih (addManager config acc p) ?_ r hr
    intro r2 hr2
    simp only [addManager] at hr2
    split at hr2
    next hne =>
      rcases List.mem_append.mp hr2 with hmem | hmem
      · exact hacc r2 hmem
      · rcases List.mem_singleton.mp hmem with rfl
        exact hne
    next => exact hacc r2 hr2

/-- Claim C6: every resourceManager returned by a successful
NewResourceManagers call has a non-empty device list — a resource name whose
matched device set is empty produces no manager. -/
theorem NewResourceManagers_no_empty_pool (env : NvmlEnv) (config : Config)
    (rms : List resourceManager)
    (h : (NewResourceManagers env config).1 = .ok rms)
    (r : resourceManager) (hr : r ∈ rms) :
    r.Devices.length ≠ 0 := by
  obtain ⟨init, dmap⟩ := env
  cases init with
  | false =>
    cases hf : config.flags.failOnInitError with
    | true => simp [NewResourceManagers, hf] at h
    | false =>
      simp [NewResourceManagers, hf] at h
      subst h
      exact absurd hr (List.not_mem_nil r)
  | true =>
    cases dmap with
    | none => simp [NewResourceManagers] at h
    | some dm =>
      simp [NewResourceManagers] at h
      subst h
      exact addManager_foldl_nonempty config dm [] (by simp) r hr

/-- Claim C6 witness: a device map with one populated pool and one empty pool
yields exactly the populated manager, whose device list is non-empty. -/
theorem NewResourceManagers_no_empty_pool_witness :
    rm0.Devices.length ≠ 0 :=
  NewResourceManagers_no_empty_pool
    { initSuccess := true, deviceMap := some [("gpu", [dev0]), ("mig", [])] }
    cfg0 [rm0] rfl rm0 (List.mem_singleton_self rm0)

/-- Claim C7: on every path of NewResourceManagers on which NVML was
successfully initialized, the deferred NVML shutdown runs before the function
returns, including the path where building the device map fails. -/
theorem NewResourceManagers_shutdown (env : NvmlEnv) (config : Config)
    (h : env.initSuccess = true) :
    Effect.nvmlShutdown ∈ (NewResourceManagers env config).2 := by
  cases hd : env.deviceMap <;> simp [NewResourceManagers, h, hd]

/-- Claim C7 witness: the shutdown effect is recorded on the path where the
device map fails to build. -/
theorem NewResourceManagers_shutdown_witness :
    Effect.nvmlShutdown ∈
      (NewResourceManagers { initSuccess := true, deviceMap := none } cfg0).2 :=
  NewResourceManagers_shutdown { initSuccess := true, deviceMap := none }
    cfg0 rfl

/-- The MIG-profile walk of the mixed strategy never touches the whole-GPU
rule list. -/
lemma walkMigProfiles_gpus (profiles : List String) (rs : Resources) :
    (walkMigProfiles (fun p rs2 => rs2.AddMIGResource p ("mig-" ++ p))
        profiles rs).2.gpus = rs.gpus := by
  induction profiles generalizing rs with
  | nil => rfl
  | cons p rest ih =>
    have hstep :
        walkMigProfiles (fun q rs2 => rs2.AddMIGResource q ("mig-" ++ q))
            (p :: rest) rs =
          walkMigProfiles (fun q rs2 => rs2.AddMIGResource q ("mig-" ++ q))
            rest { rs with migs := rs.migs ++ [(p, "mig-" ++ p)] } := rfl
    rw [hstep, ih]

/-- Claim C9: under the mixed MIG strategy with NVML not detected on the node,
AddDefaultResourcesToConfig adds only the whole-GPU rule and returns no error,
whatever the value of FailOnInitError — the fail-fast flag is consulted only
on a later NVML initialization failure, not on NVML absence. -/
theorem AddDefaultResourcesToConfig_mixed_no_nvml (env : MigEnv)
    (config : Config)
    (hm : config.flags.migStrategy = MigStrategyMixed)
    (hn : env.hasNVML = false) :
    AddDefaultResourcesToConfig env config =
      (none, { config with
        resources := config.resources.AddGPUResource "*" "gpu" }) := by
  have hne : MigStrategyMixed ≠ MigStrategySingle := by decide
  simp [AddDefaultResourcesToConfig, hm, hn, hne]

/-- Claim C9 witness: mixed strategy, NVML absent, fail-fast flag set — the
call still succeeds with only the whole-GPU rule added. -/
theorem AddDefaultResourcesToConfig_mixed_no_nvml_witness :
    AddDefaultResourcesToConfig env9 cfg9 =
      (none, { cfg9 with
        resources := cfg9.resources.AddGPUResource "*" "gpu" }) :=
  AddDefaultResourcesToConfig_mixed_no_nvml env9 cfg9 rfl rfl

/-- Claim C10: AddDefaultResourcesToConfig always appends the whole-GPU rule
mapping the star pattern to the resource name gpu, under every MIG strategy
and on every hardware outcome; and under the single MIG strategy it
additionally appends the MIG rule mapping the star pattern to that same gpu
resource name, succeeding with no error. -/
theorem AddDefaultResourcesToConfig_gpu_rule (env : MigEnv) (config : Config) :
    (AddDefaultResourcesToConfig env config).2.resources.gpus =
        config.resources.gpus ++ [("*", "gpu")] ∧
      (config.flags.migStrategy = MigStrategySingle →
        (AddDefaultResourcesToConfig env config).2.resources.migs =
            config.resources.migs ++ [("*", "gpu")] ∧
          (AddDefaultResourcesToConfig env config).1 = none) := by
  have hne : MigStrategyMixed ≠ MigStrategySingle := by decide
  constructor
  · by_cases h1 : config.flags.migStrategy = MigStrategySingle
    · simp [AddDefaultResourcesToConfig, h1, Resources.AddGPUResource,
        Resources.AddMIGResource]
    · by_cases h2 : config.flags.migStrategy = MigStrategyMixed
      · by_cases h3 : env.hasNVML = true
        · by_cases h4 : env.initSuccess = true
          · simp [AddDefaultResourcesToConfig, h1, h2, h3, h4, hne,
              Resources.AddGPUResource, walkMigProfiles_gpus]
          · cases hf : config.flags.failOnInitError <;>
              simp [AddDefaultResourcesToConfig, h1, h2, h3, h4, hf, hne,
                Resources.AddGPUResource]
        · simp [AddDefaultResourcesToConfig, h1, h2, h3, hne,
            Resources.AddGPUResource]
      · simp [AddDefaultResourcesToConfig, h1, h2, Resources.AddGPUResource]
  · intro h1
    simp [AddDefaultResourcesToConfig, h1, Resources.AddGPUResource,
      Resources.AddMIGResource]

/-- Claim C10 witness: under the single MIG strategy both the whole-GPU rule
and the shared-name MIG rule are appended and no error is returned. -/
theorem AddDefaultResourcesToConfig_gpu_rule_witness :
    (AddDefaultResourcesToConfig env10 cfg10).2.resources.gpus =
        cfg10.resources.gpus ++ [("*", "gpu")] ∧
      ((AddDefaultResourcesToConfig env10 cfg10).2.resources.migs =
          cfg10.resources.migs ++ [("*", "gpu")] ∧
        (AddDefaultResourcesToConfig env10 cfg10).1 = none) :=
  ⟨(AddDefaultResourcesToConfig_gpu_rule env10 cfg10).1,
    (AddDefaultResourcesToConfig_gpu_rule env10 cfg10).2 rfl⟩

end rm
